import Mathlib

/-!
Verification of the development server `src/app/test-server.py`
(`ProxyHTTPRequestHandler`): prefix-based proxy routing, SPA fallback
routing, CORS preflight handling, and upstream response relaying.

Strings are modelled through their character lists so that every
operation is structurally recursive and kernel-evaluable.  The local
filesystem (`os.path.isdir`, which may raise) is modelled as an abstract
function `String → Except String Bool`; the network
(`urllib.request.urlopen`) as an abstract function from the outbound
request to an upstream result.
-/

namespace TestServer

/-- Char-list membership based string character search, modelling
Python's `'.' in s`. -/
def strContains (s : String) (c : Char) : Bool :=
  s.data.contains c

/-- Models Python's `s.startswith(pre)`. -/
def strStartsWith (s pre : String) : Bool :=
  pre.data.isPrefixOf s.data

/-- Lower-cases a string character-wise, modelling Python's `s.lower()`
on ASCII header names. -/
def lowerStr (s : String) : String :=
  ⟨s.data.map Char.toLower⟩

/-- Splits a character list on a separator character, modelling Python's
`s.split(sep)`: always returns at least one (possibly empty) piece. -/
def splitOnChar (sep : Char) : List Char → List (List Char)
  | [] => [[]]
  | c :: rest =>
    match splitOnChar sep rest with
    | [] => if c = sep then [[], []] else [[c]]
    | h :: t => if c = sep then [] :: h :: t else (c :: h) :: t

/-- Models Python's `path.split('/')[-1]`: the substring after the last
`'/'` (the whole string when there is no `'/'`). -/
def lastSegment (s : String) : String :=
  ⟨(splitOnChar '/' s.data).getLastD []⟩

/-- Models Python's `path.lstrip('/')`. -/
def lstripSlash (s : String) : String :=
  ⟨s.data.dropWhile (· = '/')⟩

/-- Models `os.path.join(a, b)` for POSIX paths with two arguments:
an absolute second component wins; otherwise the components are glued
with `'/'` unless the first is empty or already ends in `'/'`. -/
def osPathJoin (a b : String) : String :=
  if strStartsWith b "/" then b
  else if a = "" ∨ a.data.getLastD ' ' = '/' then a ++ b
  else a ++ "/" ++ b

/-- Models the netloc-stripping step of `urllib.parse.urlparse` for
origin-form request targets: a target starting with `"//"` has its
authority component (up to the next `'/'`, `'?'` or `'#'`) removed. -/
def stripNetloc : List Char → List Char
  | '/' :: '/' :: rest => rest.dropWhile (fun c => ¬ (c = '/' ∨ c = '?' ∨ c = '#'))
  | l => l

/-- Models the params-stripping step of `urllib.parse.urlparse`
(`_splitparams`): when the input contains a `';'`, the final
`'/'`-segment is truncated at its first `';'` (inputs with no `'/'` are
truncated at the first `';'`). -/
def dropParams (l : List Char) : List Char :=
  if l.contains ';' then
    if l.contains '/' then
      let segs := splitOnChar '/' l
      let lastSeg := segs.getLastD []
      if lastSeg.contains ';' then
        List.intercalate ['/'] (segs.dropLast ++ [lastSeg.takeWhile (· ≠ ';')])
      else l
    else l.takeWhile (· ≠ ';')
  else l

/-- The characters `urllib.parse` permits inside a scheme
(`scheme_chars`). -/
def schemeChars (c : Char) : Bool :=
  c.isAlpha || c.isDigit || c = '+' || c = '-' || c = '.'

/-- Models the scheme-stripping step of `urllib.parse.urlsplit`: when
the target has a `':'` at a positive position preceded entirely by
scheme characters starting with an ASCII letter, the part before the
colon is the (lower-cased) scheme and parsing continues after the
colon; otherwise the scheme is empty and the target is unchanged. -/
def splitScheme (l : List Char) : List Char × List Char :=
  match l.findIdx? (· = ':') with
  | some i =>
    if 0 < i ∧ (l.headD ' ').isAlpha ∧ (l.take i).all schemeChars then
      ((l.take i).map Char.toLower, l.drop (i + 1))
    else ([], l)
  | none => ([], l)

/-- The schemes for which `urllib.parse.urlparse` splits params
(`uses_params`), restricted to turning the split on or off. -/
def usesParams : List String :=
  ["", "ftp", "hdl", "prospero", "http", "imap", "https", "shttp", "rtsp",
   "rtspu", "sip", "sips", "mms", "sftp", "tel"]

/-- Models whether `urllib.parse.urlparse(target)` raises `ValueError`:
after scheme stripping, a target starting with `"//"` has an authority
component (up to the next `'/'`, `'?'` or `'#'`), and CPython raises on
an unbalanced `'['`/`']'` in it (`Invalid IPv6 URL`, every version), on
a bracketed host that is not a valid IPv6/IPvFuture address (3.11+),
and on some non-ASCII authorities (`_checknetloc`).  This predicate
flags every authority containing a bracket or a non-ASCII character: a
conservative over-approximation whose `false` side is exact — a
bracket-free all-ASCII authority never raises. -/
def urlparseRaises (s : String) : Bool :=
  match (splitScheme s.data).2 with
  | '/' :: '/' :: rest =>
    let nl := rest.takeWhile (fun c => ¬ (c = '/' ∨ c = '?' ∨ c = '#'))
    nl.contains '[' || nl.contains ']' || nl.any (fun c => !(c.toNat < 128))
  | _ => false

/-- Models `urllib.parse.urlparse(target).path` on targets where it
does not raise (see `urlparseRaises`): strip the scheme, the authority,
the fragment (first `'#'` onward), the query (first `'?'` onward), and
— only for schemes in `uses_params` — the params. -/
def urlparsePath (s : String) : String :=
  let sr := splitScheme s.data
  let core := ((stripNetloc sr.2).takeWhile (· ≠ '#')).takeWhile (· ≠ '?')
  if usesParams.contains ⟨sr.1⟩ then ⟨dropParams core⟩ else ⟨core⟩

/-- Python's left-to-right, non-overlapping replace-all on character
lists, driven by a fuel counter bounding the number of scan steps. -/
def replaceFuel (pat repl : List Char) : Nat → List Char → List Char
  | 0, s => s
  | _ + 1, [] => []
  | fuel + 1, c :: rest =>
    if pat.isPrefixOf (c :: rest) then
      repl ++ replaceFuel pat repl fuel ((c :: rest).drop pat.length)
    else
      c :: replaceFuel pat repl fuel rest

/-- Models Python's `s.replace(pat, repl)` for nonempty `pat` (the only
way the source calls it). -/
def pyReplace (s pat repl : String) : String :=
  ⟨replaceFuel pat.data repl.data s.data.length s.data⟩

/-- `occursIn pat l` holds when `pat` occurs as a contiguous sublist of
`l` (substring occurrence). -/
def occursIn (pat : List Char) : List Char → Bool
  | [] => pat.isEmpty
  | c :: rest => pat.isPrefixOf (c :: rest) || occursIn pat rest

/-- HTTP methods the handler implements. -/
inductive Method
  | GET
  | POST
  | OPTIONS
  deriving DecidableEq, Repr

/-- Routing outcome of the request dispatcher (`do_GET` / `do_POST`).
`Raised` models an uncaught exception escaping the handler — the
`urlparse` call at line 26 sits outside the `try` that begins at line
31, so a `ValueError` there aborts the request with no response and no
routing decision. -/
inductive RouteDecision
  | Forward (method : Method) (path : String)
  | ServeFile (path : String)
  | ServeFallback (path : String)
  | MethodNotAllowed
  | Raised
  deriving DecidableEq, Repr

/-- The forward-eligibility test exactly as written in `do_GET`
(line 22 of `test-server.py`), applied to the raw `self.path`. -/
def forwardTestGET (p : String) : Bool :=
  strStartsWith p "/spa-api" || strStartsWith p "/spwg-api" || strStartsWith p "/theme/"

/-- The forward-eligibility test exactly as written in `do_POST`
(line 46 of `test-server.py`). -/
def forwardTestPOST (p : String) : Bool :=
  strStartsWith p "/spa-api" || strStartsWith p "/spwg-api" || strStartsWith p "/theme/"

/-- The forward-eligibility test exactly as written in `log_message`
(line 125 of `test-server.py`). -/
def forwardTestLog (p : String) : Bool :=
  strStartsWith p "/spa-api" || strStartsWith p "/spwg-api" || strStartsWith p "/theme/"

/-- `log_message` prints a `[LOCAL]` line iff the (current) path fails
the forward-eligibility test. -/
def logsAsLocal (p : String) : Bool :=
  !(forwardTestLog p)

/-- Routing logic of `do_GET`: forward on an eligible prefix (before
any parsing, matching line 22 preceding line 26); otherwise parse the
target — an unparsable target makes `urlparse` raise outside the `try`
and the request dies (`Raised`); otherwise apply the SPA-fallback rule
(no `'.'` in the final segment of the parsed path, path not `"/"`, and
the joined path is not an existing directory, with any raised
filesystem error also resolving to the fallback); otherwise serve the
local file at the unchanged path.  `fs` models `os.path.isdir`, which
may raise (`Except.error`). -/
def routeGET (fs : String → Except String Bool) (cwd p : String) : RouteDecision :=
  if forwardTestGET p then .Forward .GET p
  else if urlparseRaises p then .Raised
  else
    if strContains (lastSegment (urlparsePath p)) '.' = false ∧ urlparsePath p ≠ "/" then
      match fs (osPathJoin cwd (lstripSlash (urlparsePath p))) with
      | .ok true => .ServeFile p
      | .ok false => .ServeFallback "/index.html"
      | .error _ => .ServeFallback "/index.html"
    else .ServeFile p

/-- Routing logic of `do_POST`: forward on an eligible prefix, else 405. -/
def routePOST (p : String) : RouteDecision :=
  if forwardTestPOST p then .Forward .POST p else .MethodNotAllowed

/-- The value of `self.path` when `do_GET` reaches the serving /
logging stage: the fallback branch rewrites it, all other branches leave
it unchanged. -/
def pathAfterGET (fs : String → Except String Bool) (cwd p : String) : String :=
  match routeGET fs cwd p with
  | .ServeFallback fb => fb
  | _ => p

/-- The fixed backend base URL (`PROXY_HOST`). -/
def PROXY_HOST : String := "https://iwalton.com"

/-- An inbound request as the handler sees it: the raw request target
(`self.path`, query string included), the header list (in arrival
order, names case-preserved), and the bytes available on `self.rfile`. -/
structure InRequest where
  path : String
  headers : List (String × String)
  bodyStream : List UInt8
  deriving DecidableEq, Repr

/-- Case-insensitive first-match header lookup, modelling
`email.message.Message.get` used by `self.headers.get` /
`self.headers[...]` / `in self.headers`. -/
def headerGet (hs : List (String × String)) (name : String) : Option String :=
  (hs.find? (fun h => lowerStr h.1 = lowerStr name)).map Prod.snd

/-- Digit-string to number, `none` on an empty list or a non-digit. -/
def digitsToNat? (l : List Char) : Option Nat :=
  if l = [] then none
  else l.foldl
    (fun acc c => acc.bind (fun a => if c.isDigit then some (a * 10 + (c.toNat - 48)) else none))
    (some 0)

/-- Models Python's `int(s)` on header-style numeric strings: optional
surrounding whitespace, optional sign, decimal digits; `none` models a
raised `ValueError`. -/
def pyInt? (s : String) : Option Int :=
  match (s.data.dropWhile Char.isWhitespace).reverse.dropWhile Char.isWhitespace |>.reverse with
  | '-' :: rest => (digitsToNat? rest).map (fun n => -(n : Int))
  | '+' :: rest => (digitsToNat? rest).map Int.ofNat
  | rest => (digitsToNat? rest).map Int.ofNat

/-- Models `int(self.headers.get('Content-Length', 0))`: `0` when the
header is absent, the parsed value otherwise, `none` when `int(...)`
raises. -/
def contentLengthOf (req : InRequest) : Option Int :=
  match headerGet req.headers "Content-Length" with
  | none => some 0
  | some s => pyInt? s

/-- The outbound request handed to `urllib.request.Request`. -/
structure OutboundRequest where
  url : String
  method : Method
  headers : List (String × String)
  data : Option (List UInt8)
  deriving DecidableEq, Repr

/-- The request-building half of `proxy_request` (lines 51-82): target
URL `PROXY_HOST + self.path`; for POST, a body of exactly the declared
`Content-Length` bytes when that is positive (`Except.error` models a
raised `ValueError` from `int(...)`); the upstream header dict holds
`User-Agent` (default `Mozilla/5.0`), `Content-Type` (default
`application/json`) and `Cookie` only when the inbound request has one. -/
def buildOutbound (m : Method) (req : InRequest) : Except String OutboundRequest := do
  let targetUrl := PROXY_HOST ++ req.path
  let body : Option (List UInt8) ←
    match m with
    | .POST =>
      match contentLengthOf req with
      | none => Except.error "invalid literal for int()"
      | some n => pure (if 0 < n then some (req.bodyStream.take n.toNat) else none)
    | _ => pure none
  let hs := [("User-Agent", (headerGet req.headers "User-Agent").getD "Mozilla/5.0"),
             ("Content-Type", (headerGet req.headers "Content-Type").getD "application/json")]
  let hs :=
    match headerGet req.headers "Cookie" with
    | some v => hs ++ [("Cookie", v)]
    | none => hs
  pure ⟨targetUrl, m, hs, body⟩

/-- An upstream response as `urlopen` delivers it. -/
structure UpstreamResponse where
  status : Nat
  headers : List (String × String)
  body : List UInt8
  deriving DecidableEq, Repr

/-- The response the caller sees. -/
structure CallerResponse where
  status : Nat
  headers : List (String × String)
  body : List UInt8
  deriving DecidableEq, Repr

/-- The header filter of `proxy_request` (line 91):
`header.lower() not in ['transfer-encoding', 'connection']`. -/
def keepHeader (h : String × String) : Bool :=
  !(lowerStr h.1 == "transfer-encoding" || lowerStr h.1 == "connection")

/-- The Set-Cookie rewriting of `proxy_request` (line 95):
`value.replace('; Secure', '').replace(';Secure', '')`. -/
def stripSecure (v : String) : String :=
  pyReplace (pyReplace v "; Secure" "") ";Secure" ""

/-- Per-header rewriting step of `proxy_request` (lines 93-96). -/
def rewriteHeader (h : String × String) : String × String :=
  if lowerStr h.1 = "set-cookie" then (h.1, stripSecure h.2) else h

/-- The three CORS headers injected by `proxy_request` and `do_OPTIONS`. -/
def corsHeaders : List (String × String) :=
  [("Access-Control-Allow-Origin", "*"),
   ("Access-Control-Allow-Methods", "GET, POST, OPTIONS"),
   ("Access-Control-Allow-Headers", "Content-Type")]

/-- The response-relaying half of `proxy_request` (lines 85-106): keep
the upstream status, relay every upstream header not on the deny list
(Set-Cookie values Secure-stripped), append the CORS headers, and copy
the body bytes verbatim. -/
def relayResponse (r : UpstreamResponse) : CallerResponse :=
  { status := r.status
    headers := (r.headers.filter keepHeader).map rewriteHeader ++ corsHeaders
    body := r.body }

/-- Outcome of the `urlopen` call: a response, an `HTTPError` (the
remote host answered with a protocol-level error status), or any other
exception (network unreachable, DNS failure, timeout, ...). -/
inductive UpstreamResult
  | success (r : UpstreamResponse)
  | httpError (code : Nat) (reason : String)
  | failure (msg : String)
  deriving Repr

/-- What `proxy_request` sends back: a relayed upstream response, or an
error page produced by `send_error(code, message)`. -/
inductive ProxyOutcome
  | relayed (r : CallerResponse)
  | errorResponse (code : Nat) (message : String)
  deriving Repr

/-- The whole of `proxy_request` (lines 50-113) as a total function:
build the outbound request, consult the network (`net` models
`urlopen`), relay a successful response, map an `HTTPError` to
`send_error(e.code, e.reason)`, and any other failure — including a
`ValueError` from parsing `Content-Length` — to
`send_error(500, 'Proxy error: ...')`.  Totality reflects that the
handler catches every exception and never crashes the process. -/
def proxyRequest (m : Method) (req : InRequest)
    (net : OutboundRequest → UpstreamResult) : ProxyOutcome :=
  match buildOutbound m req with
  | .error e => .errorResponse 500 ("Proxy error: " ++ e)
  | .ok ob =>
    match net ob with
    | .success r => .relayed (relayResponse r)
    | .httpError c reason => .errorResponse c reason
    | .failure msg => .errorResponse 500 ("Proxy error: " ++ msg)

/-- `do_OPTIONS` (lines 115-121): a fixed CORS preflight response,
independent of the request path and of any routing or filesystem
state. -/
def doOPTIONS (_p : String) : CallerResponse :=
  { status := 200, headers := corsHeaders, body := [] }

/-- A filesystem on which no path is a directory. -/
def fsAllFalse : String → Except String Bool := fun _ => Except.ok false

/-- A filesystem whose directory check always raises. -/
def fsAllErr : String → Except String Bool := fun _ => Except.error "Permission denied"

/-- A concrete inbound POST request used by witnesses: a cookie, a
custom user agent, and a declared 3-byte body. -/
def reqW : InRequest :=
  { path := "/spa-api/x?y=1"
    headers := [("User-Agent", "UA1"), ("Cookie", "k=v"), ("Content-Length", "3")]
    bodyStream := [104, 105, 33] }

/-- The outbound request `buildOutbound` produces from `reqW` for POST. -/
def obW : OutboundRequest :=
  { url := "https://iwalton.com/spa-api/x?y=1"
    method := .POST
    headers := [("User-Agent", "UA1"), ("Content-Type", "application/json"),
                ("Cookie", "k=v")]
    data := some [104, 105, 33] }

/-- The outbound request `buildOutbound` produces from `reqW` for GET. -/
def obWGET : OutboundRequest :=
  { url := "https://iwalton.com/spa-api/x?y=1"
    method := .GET
    headers := [("User-Agent", "UA1"), ("Content-Type", "application/json"),
                ("Cookie", "k=v")]
    data := none }

/-- A concrete upstream response used by witnesses: one relayable
header, one deny-listed header, a two-byte body. -/
def upW : UpstreamResponse :=
  { status := 200
    headers := [("Content-Type", "text/html"), ("Transfer-Encoding", "chunked")]
    body := [111, 107] }

/-- A concrete upstream response carrying a Secure cookie. -/
def cookieW : UpstreamResponse :=
  { status := 200
    headers := [("Set-Cookie", "session=abc; Secure; HttpOnly")]
    body := [] }

/-- A network on which every request fails with a protocol-level 404. -/
def netHttpErr : OutboundRequest → UpstreamResult :=
  fun _ => .httpError 404 "Not Found"

/-- Exhaustive description of `routeGET`: it forwards exactly when the
eligibility test passes; failing that it dies unanswered exactly when
the parse raises; and otherwise serves either the local file at the
unchanged path or the SPA fallback document. -/
theorem routeGET_elim (fs : String → Except String Bool) (cwd p : String) :
    (routeGET fs cwd p = .Forward .GET p ∧ forwardTestGET p = true) ∨
    (routeGET fs cwd p = .Raised ∧ forwardTestGET p = false ∧ urlparseRaises p = true) ∨
    (routeGET fs cwd p = .ServeFile p ∧ forwardTestGET p = false) ∨
    (routeGET fs cwd p = .ServeFallback "/index.html" ∧ forwardTestGET p = false) := by
  unfold routeGET
  cases hb : forwardTestGET p
  · simp only [Bool.false_eq_true, if_false]
    cases hr : urlparseRaises p
    · simp only [Bool.false_eq_true, if_false]
      by_cases hc : strContains (lastSegment (urlparsePath p)) '.' = false ∧ urlparsePath p ≠ "/"
      · rw [if_pos hc]
        cases hfs : fs (osPathJoin cwd (lstripSlash (urlparsePath p)))
        · exact Or.inr (Or.inr (Or.inr ⟨rfl, trivial⟩))
        · rename_i b
          cases b
          · exact Or.inr (Or.inr (Or.inr ⟨rfl, trivial⟩))
          · exact Or.inr (Or.inr (Or.inl ⟨rfl, trivial⟩))
      · rw [if_neg hc]
        exact Or.inr (Or.inr (Or.inl ⟨rfl, trivial⟩))
    · exact Or.inr (Or.inl ⟨by rw [if_pos rfl], trivial, rfl⟩)
  · exact Or.inl ⟨by rw [if_pos rfl], rfl⟩

/-- C1: a request whose path passes the configured forward-prefix test
is routed to the Forward decision for both GET and POST, for every
filesystem state. -/
theorem forward_eligible_routes_forward (fs : String → Except String Bool)
    (cwd p : String) (h : forwardTestGET p = true) :
    routeGET fs cwd p = .Forward .GET p ∧ routePOST p = .Forward .POST p := by
  refine ⟨?_, ?_⟩
  · unfold routeGET
    rw [if_pos h]
  · unfold routePOST
    rw [if_pos (show forwardTestPOST p = true from h)]

/-- Witness for C1 at the concrete path `/spa-api/ping` on a filesystem
with no directories. -/
theorem forward_eligible_routes_forward_witness :
    routeGET fsAllFalse "/srv" "/spa-api/ping" = .Forward .GET "/spa-api/ping" ∧
    routePOST "/spa-api/ping" = .Forward .POST "/spa-api/ping" :=
  forward_eligible_routes_forward fsAllFalse "/srv" "/spa-api/ping" (by decide)

/-- C2 counterexample: at the GET target `//[x` every condition of the
claim holds — not forward-eligible, final segment `[x` with no `'.'`,
not the root, and no directory anywhere on the filesystem — yet the
routing decision is not ServeFallback: `urlparse` raises
`ValueError: Invalid IPv6 URL` at line 26, outside the `try`, so the
request dies with no response and no fallback is served. -/
theorem spa_fallback_unparsable_crash :
    forwardTestGET "//[x" = false ∧
    strContains (lastSegment "//[x") '.' = false ∧
    ("//[x" : String) ≠ "/" ∧
    fsAllFalse (osPathJoin "/srv" (lstripSlash "//[x")) = Except.ok false ∧
    urlparseRaises "//[x" = true ∧
    routeGET fsAllFalse "/srv" "//[x" = .Raised ∧
    routeGET fsAllFalse "/srv" "//[x" ≠ .ServeFallback "/index.html" := by
  refine ⟨by decide, by decide, by decide, rfl, by decide, by decide, by decide⟩

/-- C2 (amended): a GET whose path fails the forward-prefix test, whose
target `urlparse` accepts without raising, whose parsed path has no
`'.'` in its final segment and is not `"/"`, and which does not resolve
to an existing local directory, is routed to the SPA fallback
`/index.html`. -/
theorem spa_fallback_route (fs : String → Except String Bool) (cwd p : String)
    (h0 : urlparseRaises p = false)
    (h1 : forwardTestGET p = false)
    (h2 : strContains (lastSegment (urlparsePath p)) '.' = false)
    (h3 : urlparsePath p ≠ "/")
    (h4 : fs (osPathJoin cwd (lstripSlash (urlparsePath p))) = Except.ok false) :
    routeGET fs cwd p = .ServeFallback "/index.html" := by
  unfold routeGET
  rw [h1]
  simp only [Bool.false_eq_true, if_false]
  rw [h0]
  simp only [Bool.false_eq_true, if_false]
  rw [if_pos ⟨h2, h3⟩, h4]

/-- Witness for C2 at the concrete path `/settings/profile` on a
filesystem with no directories. -/
theorem spa_fallback_route_witness :
    routeGET fsAllFalse "/srv" "/settings/profile" = .ServeFallback "/index.html" :=
  spa_fallback_route fsAllFalse "/srv" "/settings/profile"
    (by decide) (by decide) (by decide) (by decide) rfl

/-- C8: a GET outside the forward prefixes that reaches the SPA-fallback
check — its target parses without raising (the `urlparse` call at line
26 precedes the check) and the fallback conditions hold (no `'.'` in
the final parsed segment, path not `"/"`) — is routed to the SPA
fallback `/index.html` whenever the directory-existence check raises
any filesystem error; the error is never propagated. -/
theorem fs_error_fail_open (fs : String → Except String Bool) (cwd p e : String)
    (h0 : urlparseRaises p = false)
    (h1 : forwardTestGET p = false)
    (h2 : strContains (lastSegment (urlparsePath p)) '.' = false)
    (h3 : urlparsePath p ≠ "/")
    (h4 : fs (osPathJoin cwd (lstripSlash (urlparsePath p))) = Except.error e) :
    routeGET fs cwd p = .ServeFallback "/index.html" := by
  unfold routeGET
  rw [h1]
  simp only [Bool.false_eq_true, if_false]
  rw [h0]
  simp only [Bool.false_eq_true, if_false]
  rw [if_pos ⟨h2, h3⟩, h4]

/-- Witness for C8 at the concrete path `/settings/profile` on a
filesystem whose directory check always raises. -/
theorem fs_error_fail_open_witness :
    routeGET fsAllErr "/srv" "/settings/profile" = .ServeFallback "/index.html" :=
  fs_error_fail_open fsAllErr "/srv" "/settings/profile" "Permission denied"
    (by decide) (by decide) (by decide) (by decide) rfl

/-- C7: `do_OPTIONS` answers every path with status 200, exactly the
three CORS headers, and an empty body, with no dependence on the path
(and hence on any routing decision or filesystem state). -/
theorem options_cors_preflight (p : String) :
    (doOPTIONS p).status = 200 ∧
    (doOPTIONS p).headers =
      [("Access-Control-Allow-Origin", "*"),
       ("Access-Control-Allow-Methods", "GET, POST, OPTIONS"),
       ("Access-Control-Allow-Headers", "Content-Type")] ∧
    (doOPTIONS p).body = [] ∧
    (∀ q, doOPTIONS p = doOPTIONS q) :=
  ⟨rfl, rfl, rfl, fun _ => rfl⟩

/-- C9: the forward-eligibility tests written in `do_GET`, `do_POST`
and `log_message` agree on every path; `log_message` classifies a
request as local exactly when the test fails; the path `log_message`
sees after GET routing classifies the same as the original request path;
and `do_OPTIONS` is independent of the test (it treats forwarded and
local paths identically). -/
theorem forward_test_single_source :
    (∀ p, forwardTestPOST p = forwardTestGET p) ∧
    (∀ p, forwardTestLog p = forwardTestGET p) ∧
    (∀ p, logsAsLocal p = !(forwardTestGET p)) ∧
    (∀ fs cwd p, forwardTestLog (pathAfterGET fs cwd p) = forwardTestGET p) ∧
    (∀ p q, doOPTIONS p = doOPTIONS q) := by
  refine ⟨fun _ => rfl, fun _ => rfl, fun _ => rfl, ?_, fun _ _ => rfl⟩
  intro fs cwd p
  unfold pathAfterGET
  rcases routeGET_elim fs cwd p with ⟨he, _⟩ | ⟨he, _, _⟩ | ⟨he, _⟩ | ⟨he, hb⟩ <;> rw [he]
  · rw [show forwardTestLog p = forwardTestGET p from rfl]
  · rw [show forwardTestLog p = forwardTestGET p from rfl]
  · rw [show forwardTestLog p = forwardTestGET p from rfl]
  · rw [hb]
    exact (by decide : forwardTestLog "/index.html" = false)

/-- C10: the forward test is a plain string-prefix check on the raw
request target (query string included): `/spa-apifoo` and `/spwg-apix`
pass with no separating slash and are forwarded, a query string does not
defeat the check, while `/theme` without its trailing slash fails and
falls through to local GET routing on every filesystem. -/
theorem effective_prefix_semantics :
    forwardTestGET "/spa-apifoo" = true ∧
    forwardTestGET "/spwg-apix" = true ∧
    forwardTestGET "/theme" = false ∧
    forwardTestGET "/theme/dark.css" = true ∧
    forwardTestGET "/spa-api?q=1" = true ∧
    (∀ fs cwd, routeGET fs cwd "/spa-apifoo" = .Forward .GET "/spa-apifoo") ∧
    (∀ fs cwd, routeGET fs cwd "/theme" = .ServeFile "/theme" ∨
               routeGET fs cwd "/theme" = .ServeFallback "/index.html") := by
  refine ⟨by decide, by decide, by decide, by decide, by decide, ?_, ?_⟩
  · intro fs cwd
    unfold routeGET
    rw [if_pos (by decide : forwardTestGET "/spa-apifoo" = true)]
  · intro fs cwd
    rcases routeGET_elim fs cwd "/theme" with ⟨_, hb⟩ | ⟨_, _, hr⟩ | ⟨he, _⟩ | ⟨he, _⟩
    · exact absurd hb (by decide)
    · exact absurd hr (by decide)
    · exact Or.inl he
    · exact Or.inr he

/-- Header rewriting never changes a header's name. -/
theorem rewriteHeader_fst (h : String × String) : (rewriteHeader h).1 = h.1 := by
  unfold rewriteHeader
  split <;> rfl

/-- A header passes the relay filter exactly when its lower-cased name
is neither `transfer-encoding` nor `connection`. -/
theorem keepHeader_iff (h : String × String) :
    keepHeader h = true ↔
      lowerStr h.1 ≠ "transfer-encoding" ∧ lowerStr h.1 ≠ "connection" := by
  unfold keepHeader
  simp only [Bool.not_eq_true', Bool.or_eq_false_iff, beq_eq_false_iff_ne, ne_eq]

/-- Every upstream header passing the deny-list filter appears,
rewritten, among the relayed headers. -/
theorem relay_keeps_header (r : UpstreamResponse) (h : String × String)
    (hm : h ∈ r.headers) (h1 : lowerStr h.1 ≠ "transfer-encoding")
    (h2 : lowerStr h.1 ≠ "connection") :
    rewriteHeader h ∈ (relayResponse r).headers :=
  List.mem_append.mpr (Or.inl (List.mem_map_of_mem rewriteHeader
    (List.mem_filter.mpr ⟨hm, (keepHeader_iff h).mpr ⟨h1, h2⟩⟩)))

/-- C3: a relayed response carries the upstream status code; its body
bytes are the upstream body bytes; it contains the three CORS headers;
every upstream header whose lower-cased name is neither
`transfer-encoding` nor `connection` is included (verbatim when it is
not a Set-Cookie header, Secure-stripped when it is); and no header of
the relayed response is named `Transfer-Encoding` or `Connection` in any
casing. -/
theorem relayed_response_contract (r : UpstreamResponse) :
    (relayResponse r).status = r.status ∧
    (relayResponse r).body = r.body ∧
    (∀ h, h ∈ corsHeaders → h ∈ (relayResponse r).headers) ∧
    (∀ h, h ∈ r.headers → lowerStr h.1 ≠ "transfer-encoding" →
        lowerStr h.1 ≠ "connection" → rewriteHeader h ∈ (relayResponse r).headers) ∧
    (∀ h, h ∈ r.headers → lowerStr h.1 ≠ "transfer-encoding" →
        lowerStr h.1 ≠ "connection" → lowerStr h.1 ≠ "set-cookie" →
        h ∈ (relayResponse r).headers) ∧
    (∀ h, h ∈ (relayResponse r).headers →
        lowerStr h.1 ≠ "transfer-encoding" ∧ lowerStr h.1 ≠ "connection") := by
  have hmem := relay_keeps_header r
  refine ⟨rfl, rfl, ?_, fun h hm h1 h2 => hmem h hm h1 h2, ?_, ?_⟩
  · intro h hm
    exact List.mem_append.mpr (Or.inr hm)
  · intro h hm h1 h2 h3
    have := hmem h hm h1 h2
    rwa [show rewriteHeader h = h by unfold rewriteHeader; rw [if_neg h3]] at this
  · intro h hm
    rcases List.mem_append.mp hm with hL | hR
    · obtain ⟨g, hg, hgh⟩ := List.mem_map.mp hL
      obtain ⟨_, hk⟩ := List.mem_filter.mp hg
      have hfst : h.1 = g.1 := by rw [← hgh, rewriteHeader_fst]
      rw [hfst]
      exact (keepHeader_iff g).mp hk
    · simp only [corsHeaders, List.mem_cons, List.not_mem_nil, or_false] at hR
      rcases hR with rfl | rfl | rfl
      · exact ⟨by decide, by decide⟩
      · exact ⟨by decide, by decide⟩
      · exact ⟨by decide, by decide⟩

/-- Witness for C3 on the concrete upstream response `upW`: status and
body carried over, a CORS header present, the relayable header present
verbatim, and the deny-listed `Transfer-Encoding` header absent. -/
theorem relayed_response_contract_witness :
    (relayResponse upW).status = 200 ∧
    (relayResponse upW).body = [111, 107] ∧
    ("Access-Control-Allow-Origin", "*") ∈ (relayResponse upW).headers ∧
    ("Content-Type", "text/html") ∈ (relayResponse upW).headers := by
  have h := relayed_response_contract upW
  exact ⟨h.1, h.2.1, h.2.2.1 _ (by decide),
    h.2.2.2.2.1 ("Content-Type", "text/html") (by decide) (by decide) (by decide) (by decide)⟩

/-- C4 counterexample: the sequential two-pass removal is not a
fixpoint.  On the upstream value `"; ;SecureSecure"`, removing the
occurrence of `";Secure"` glues the surrounding fragments into a fresh
`"; Secure"`, so the relayed Set-Cookie value still contains an
occurrence of `"; Secure"`. -/
theorem set_cookie_strip_residual :
    stripSecure "; ;SecureSecure" = "; Secure" ∧
    occursIn ("; Secure".data) ((stripSecure "; ;SecureSecure").data) = true ∧
    ("Set-Cookie", "; Secure") ∈
      (relayResponse { status := 200,
                       headers := [("Set-Cookie", "; ;SecureSecure")],
                       body := [] }).headers := by
  refine ⟨by decide, by decide, by decide⟩

/-- C4 (amended): every forwarded Set-Cookie header reaches the caller
with its value transformed by one replace-all pass of `"; Secure"` with
the empty string followed by one replace-all pass of `";Secure"` (which
removes every occurrence present in the original value, though
fragments made adjacent by a removal can form a new occurrence that
survives); in particular `"session=abc; Secure; HttpOnly"` is relayed
as `"session=abc; HttpOnly"`. -/
theorem set_cookie_rewritten (r : UpstreamResponse) (n v : String)
    (h1 : (n, v) ∈ r.headers) (h2 : lowerStr n = "set-cookie") :
    (n, pyReplace (pyReplace v "; Secure" "") ";Secure" "") ∈ (relayResponse r).headers ∧
    stripSecure "session=abc; Secure; HttpOnly" = "session=abc; HttpOnly" := by
  refine ⟨?_, by decide⟩
  have hmem := relay_keeps_header r (n, v) h1
    (by rw [h2]; decide) (by rw [h2]; decide)
  rwa [show rewriteHeader (n, v) = (n, stripSecure v) by
    unfold rewriteHeader; rw [if_pos h2]] at hmem

/-- Witness for C4's amended theorem on the concrete response
`cookieW`. -/
theorem set_cookie_rewritten_witness :
    ("Set-Cookie", "session=abc; HttpOnly") ∈ (relayResponse cookieW).headers := by
  have h := (set_cookie_rewritten cookieW "Set-Cookie" "session=abc; Secure; HttpOnly"
    (by decide) (by decide)).1
  have e : pyReplace (pyReplace "session=abc; Secure; HttpOnly" "; Secure" "") ";Secure" ""
      = "session=abc; HttpOnly" := by decide
  rwa [e] at h

/-- C5: a successfully built outbound request targets
`PROXY_HOST ++ path` (the raw request target, query string included,
unchanged), keeps the method, carries exactly the headers `User-Agent`
(inbound value, or `Mozilla/5.0`), `Content-Type` (inbound value, or
`application/json`) and `Cookie` exactly when the inbound request has
one; a GET carries no body, and a POST carries the first
`Content-Length` bytes of the inbound stream when that declared length
is positive and no body otherwise. -/
theorem outbound_request_contract (m : Method) (req : InRequest) (ob : OutboundRequest)
    (hb : buildOutbound m req = Except.ok ob) :
    ob.url = PROXY_HOST ++ req.path ∧
    ob.method = m ∧
    headerGet ob.headers "User-Agent"
      = some ((headerGet req.headers "User-Agent").getD "Mozilla/5.0") ∧
    headerGet ob.headers "Content-Type"
      = some ((headerGet req.headers "Content-Type").getD "application/json") ∧
    headerGet ob.headers "Cookie" = headerGet req.headers "Cookie" ∧
    (ob.headers.map Prod.fst = ["User-Agent", "Content-Type"] ∨
     ob.headers.map Prod.fst = ["User-Agent", "Content-Type", "Cookie"]) ∧
    (m = .GET → ob.data = none) ∧
    (m = .POST → ∀ n, contentLengthOf req = some n →
        (0 < n → ob.data = some (req.bodyStream.take n.toNat)) ∧
        (¬ 0 < n → ob.data = none)) := by
  cases m
  case GET =>
    cases hck : headerGet req.headers "Cookie"
    case none =>
      unfold buildOutbound at hb
      rw [hck] at hb
      injection hb with hb
      subst hb
      exact ⟨rfl, rfl, rfl, rfl, rfl, Or.inl rfl, fun _ => rfl,
        fun hpm => Method.noConfusion hpm⟩
    case some v =>
      unfold buildOutbound at hb
      rw [hck] at hb
      injection hb with hb
      subst hb
      exact ⟨rfl, rfl, rfl, rfl, rfl, Or.inr rfl, fun _ => rfl,
        fun hpm => Method.noConfusion hpm⟩
  case OPTIONS =>
    cases hck : headerGet req.headers "Cookie"
    case none =>
      unfold buildOutbound at hb
      rw [hck] at hb
      injection hb with hb
      subst hb
      exact ⟨rfl, rfl, rfl, rfl, rfl, Or.inl rfl, fun hgm => Method.noConfusion hgm,
        fun hpm => Method.noConfusion hpm⟩
    case some v =>
      unfold buildOutbound at hb
      rw [hck] at hb
      injection hb with hb
      subst hb
      exact ⟨rfl, rfl, rfl, rfl, rfl, Or.inr rfl, fun hgm => Method.noConfusion hgm,
        fun hpm => Method.noConfusion hpm⟩
  case POST =>
    cases hcl : contentLengthOf req
    case none =>
      unfold buildOutbound at hb
      rw [hcl] at hb
      exact Except.noConfusion hb
    case some n0 =>
      cases hck : headerGet req.headers "Cookie"
      case none =>
        unfold buildOutbound at hb
        rw [hcl, hck] at hb
        injection hb with hb
        subst hb
        refine ⟨rfl, rfl, rfl, rfl, rfl, Or.inl rfl, fun hgm => Method.noConfusion hgm, ?_⟩
        intro _ n hn
        injection hn with hn
        subst hn
        exact ⟨fun hpos => by rw [if_pos hpos], fun hneg => by rw [if_neg hneg]⟩
      case some v =>
        unfold buildOutbound at hb
        rw [hcl, hck] at hb
        injection hb with hb
        subst hb
        refine ⟨rfl, rfl, rfl, rfl, rfl, Or.inr rfl, fun hgm => Method.noConfusion hgm, ?_⟩
        intro _ n hn
        injection hn with hn
        subst hn
        exact ⟨fun hpos => by rw [if_pos hpos], fun hneg => by rw [if_neg hneg]⟩

/-- Witness for C5 on the concrete POST request `reqW` and its outbound
request `obW`. -/
theorem outbound_request_contract_witness :
    obW.url = PROXY_HOST ++ reqW.path ∧
    headerGet obW.headers "Cookie" = headerGet reqW.headers "Cookie" ∧
    obW.data = some (reqW.bodyStream.take (3 : Int).toNat) := by
  have h := outbound_request_contract Method.POST reqW obW rfl
  exact ⟨h.1, h.2.2.2.2.1, (h.2.2.2.2.2.2.2 rfl 3 rfl).1 (by decide)⟩

/-- C6: `proxy_request` is a total function of the upstream outcome —
a protocol-level `HTTPError` from the remote host reaches the caller as
`send_error` with the same status code and reason phrase, any other
failure reaches the caller as status 500 with a message carrying the
failure description, and a success is relayed; no upstream outcome
escapes the handler. -/
theorem proxy_error_mapping (m : Method) (req : InRequest) (ob : OutboundRequest)
    (net : OutboundRequest → UpstreamResult)
    (hb : buildOutbound m req = Except.ok ob) :
    (∀ c reason, net ob = .httpError c reason →
        proxyRequest m req net = .errorResponse c reason) ∧
    (∀ msg, net ob = .failure msg →
        proxyRequest m req net = .errorResponse 500 ("Proxy error: " ++ msg)) ∧
    (∀ r, net ob = .success r →
        proxyRequest m req net = .relayed (relayResponse r)) := by
  have hred : proxyRequest m req net =
      match net ob with
      | .success r => .relayed (relayResponse r)
      | .httpError c reason => .errorResponse c reason
      | .failure msg => .errorResponse 500 ("Proxy error: " ++ msg) := by
    unfold proxyRequest
    rw [hb]
  exact ⟨fun c reason h => by rw [hred, h], fun msg h => by rw [hred, h],
    fun r h => by rw [hred, h]⟩

/-- Witness for C6: on a network answering 404 Not Found, the caller
sees 404 Not Found. -/
theorem proxy_error_mapping_witness :
    proxyRequest Method.GET reqW netHttpErr = .errorResponse 404 "Not Found" :=
  (proxy_error_mapping Method.GET reqW obWGET netHttpErr rfl).1 404 "Not Found" rfl

end TestServer
